/-
  Verification of the semantic knowledge-retrieval and ranking subsystem of
  the Lumen serverless backend.

  Shallow embedding of:
  - `VectorSearch.keyword_search` and `VectorSearch.semantic_search`
    (aws-backend/lambda/vector_search.py),
  - `VectorSearch._cosine_similarity` (same file),
  - `get_articles_for_keywords` / `get_articles_for_conditions`
    (aws-backend/lambda/learning_hub_handler.py),
  - `get_product_recommendations` (aws-backend/lambda/handler.py),
  - the request validation of the direct-invocation branch of
    `lambda_handler` (aws-backend/lambda/rag_query_handler.py).

  Python strings are modelled as `String` / `List Char`; Python `in` on
  strings is substring containment; `str.split()` splits on whitespace runs
  and drops empty pieces; `list.sort(key=..., reverse=True)` is a stable
  descending sort, modelled here by insertion sort.
-/
import Mathlib

set_option maxRecDepth 10000

/-! ### Python string primitives -/

/-- Python `str.lower()` restricted to the ASCII data occurring in this
repository, applied characterwise. -/
def pyLower (s : List Char) : List Char := s.map Char.toLower

/-- Python `needle in hay` on strings: substring containment.
`pyIn [] hay = true`, as in Python. -/
def pyIn (needle : List Char) : List Char → Bool
  | [] => needle.isEmpty
  | c :: t => needle.isPrefixOf (c :: t) || pyIn needle t

/-- Accumulator worker for `pyWords`; `acc` holds the current word reversed. -/
def pyWordsAux : List Char → List Char → List (List Char)
  | [], acc => if acc.isEmpty then [] else [acc.reverse]
  | c :: t, acc =>
    if c.isWhitespace then
      if acc.isEmpty then pyWordsAux t [] else acc.reverse :: pyWordsAux t []
    else pyWordsAux t (c :: acc)

/-- Python `str.split()` with no argument: split on runs of whitespace,
dropping empty pieces. -/
def pyWords (s : List Char) : List (List Char) := pyWordsAux s []

/-! ### Stable descending sort

Python `list.sort(key=k, reverse=True)` is a stable sort: elements are in
descending key order and elements with equal keys keep their original
relative order. Insertion sort with strict insertion realises exactly that. -/

/-- Insert `x` in front of the first element whose key is `≤ key x`
(so `x`, which comes from earlier in the original list, precedes elements of
equal key). -/
def insertDescBy (key : α → Nat) (x : α) : List α → List α
  | [] => [x]
  | y :: ys => if key y ≤ key x then x :: y :: ys else y :: insertDescBy key x ys

/-- Stable descending insertion sort by a `Nat` key, modelling Python
`list.sort(key=..., reverse=True)`. -/
def sortDescBy (key : α → Nat) : List α → List α
  | [] => []
  | x :: xs => insertDescBy key x (sortDescBy key xs)

theorem insertDescBy_perm (key : α → Nat) (x : α) (l : List α) :
    List.Perm (insertDescBy key x l) (x :: l) := by
  induction l with
  | nil => rfl
  | cons y ys ih =>
    simp only [insertDescBy]
    split
    · rfl
    · exact (List.Perm.cons y ih).trans (List.Perm.swap x y ys)

theorem sortDescBy_perm (key : α → Nat) (l : List α) :
    List.Perm (sortDescBy key l) l := by
  induction l with
  | nil => rfl
  | cons x xs ih =>
    exact (insertDescBy_perm key x (sortDescBy key xs)).trans (List.Perm.cons x ih)

theorem length_sortDescBy (key : α → Nat) (l : List α) :
    (sortDescBy key l).length = l.length :=
  (sortDescBy_perm key l).length_eq

theorem mem_sortDescBy (key : α → Nat) (l : List α) (a : α) :
    a ∈ sortDescBy key l ↔ a ∈ l :=
  (sortDescBy_perm key l).mem_iff

theorem insertDescBy_sorted (key : α → Nat) (x : α) (l : List α)
    (h : l.Pairwise (fun a b => key b ≤ key a)) :
    (insertDescBy key x l).Pairwise (fun a b => key b ≤ key a) := by
  induction l with
  | nil => simp [insertDescBy]
  | cons y ys ih =>
    rw [List.pairwise_cons] at h
    obtain ⟨hy, hys⟩ := h
    simp only [insertDescBy]
    split
    · rename_i hk
      refine List.Pairwise.cons ?_ (List.Pairwise.cons hy hys)
      intro z hz
      rcases List.mem_cons.mp hz with rfl | hz
      · exact hk
      · exact (hy z hz).trans hk
    · rename_i hk
      push_neg at hk
      refine List.Pairwise.cons ?_ (ih hys)
      intro z hz
      rcases List.mem_cons.mp ((insertDescBy_perm key x ys).mem_iff.mp hz) with rfl | hz
      · exact le_of_lt hk
      · exact hy z hz

theorem sortDescBy_sorted (key : α → Nat) (l : List α) :
    (sortDescBy key l).Pairwise (fun a b => key b ≤ key a) := by
  induction l with
  | nil => simp [sortDescBy]
  | cons x xs ih => exact insertDescBy_sorted key x _ ih

/-- Filtering for a fixed key value commutes with stable insertion: elements
the insertion jumps over all have strictly larger keys. -/
theorem filter_insertDescBy (key : α → Nat) (n : Nat) (x : α) (l : List α) :
    (insertDescBy key x l).filter (fun a => key a == n) =
      if key x == n then x :: l.filter (fun a => key a == n)
      else l.filter (fun a => key a == n) := by
  induction l with
  | nil => by_cases hx : key x = n <;> simp [insertDescBy, hx]
  | cons y ys ih =>
    simp only [insertDescBy]
    split
    · rename_i hk
      by_cases hx : key x = n <;> simp [List.filter_cons, hx]
    · rename_i hk
      push_neg at hk
      by_cases hy : key y = n
      · have hx : ¬ key x = n := by omega
        simp [List.filter_cons, hy, hx, ih]
      · by_cases hx : key x = n <;> simp [List.filter_cons, hy, hx, ih]

/-- Stability of the sort, phrased per key value: the elements with any
fixed key appear in the sorted output in their original order. -/
theorem filter_sortDescBy (key : α → Nat) (n : Nat) (l : List α) :
    (sortDescBy key l).filter (fun a => key a == n) =
      l.filter (fun a => key a == n) := by
  induction l with
  | nil => rfl
  | cons x xs ih =>
    simp only [sortDescBy]
    rw [filter_insertDescBy]
    by_cases hx : key x = n <;> simp [List.filter_cons, hx, ih]

/-! ### The keyword ranker (`VectorSearch.keyword_search`) -/

/-- A document of the fixed in-memory corpus, mirroring the article dicts
built in `VectorSearch.load_articles`. -/
structure Article where
  id : String
  title : String
  content : String
  url : String
  source : String
  category : String
  keywords : List String
deriving DecidableEq, Repr

/-- A search result: the article copy (with its `content` trimmed for the
response) together with the `relevance_score` field the code adds to it. -/
structure Scored where
  article : Article
  relevance_score : ℚ
deriving DecidableEq, Repr

/-- Model of `article_copy['content'] = article_copy['content'][:300] + '...'`. -/
def trimContent (s : String) : String := String.mk (s.data.take 300 ++ "...".data)

/-- The integer keyword-match score `keyword_search` computes per article:
`+3` once if any query word is a substring of the lowered title, `+2` per
article keyword that is a substring of the lowered query, `+1` per distinct
query word that is a substring of the lowered content. `query_words` is a
Python `set`, modelled by `dedup`. -/
def keywordScore (query : String) (a : Article) : Nat :=
  let ql := pyLower query.data
  let qws := (pyWords ql).dedup
  (if qws.any (fun w => pyIn w (pyLower a.title.data)) then 3 else 0)
    + 2 * (a.keywords.filter (fun kw => pyIn kw.data ql)).length
    + (qws.filter (fun w => pyIn w (pyLower a.content.data))).length

/-- The result entry built for a scoring article: the article copy with
trimmed content and `relevance_score = score / 10.0` (the line commented
`# Normalize` in the source). -/
def mkScored (score : Nat) (a : Article) : Scored :=
  { article := { a with content := trimContent a.content }
    relevance_score := (score : ℚ) / 10 }

/-- The `scored_articles` list of `keyword_search`: `(score, article_copy)`
pairs, in corpus order, restricted to `score > 0`. -/
def scoredList (corpus : List Article) (query : String) : List (Nat × Scored) :=
  corpus.filterMap (fun a =>
    let s := keywordScore query a
    if 0 < s then some (s, mkScored s a) else none)

/-- Model of `VectorSearch.keyword_search`: score each corpus article, keep strictly
positive scores, stable-sort descending by score, truncate to `top_k`, and
return the article copies. -/
def keyword_search (corpus : List Article) (query : String) (top_k : Nat) :
    List Scored :=
  ((sortDescBy (fun p => p.1) (scoredList corpus query)).take top_k).map (fun p => p.2)

/-- The scoring rule exactly as claim C1 words it: +3 (at most once) if any
whitespace-split lower-cased query word occurs in the title case-insensitively,
+2 for each document keyword occurring in the lower-cased query, +1 for each
query word occurring in the document body. -/
def claimScore (query : String) (a : Article) : Nat :=
  let qws := (pyWords (pyLower query.data)).dedup
  3 * (if qws.any (fun w => pyIn w (pyLower a.title.data)) then 1 else 0)
    + 2 * (a.keywords.countP (fun kw => pyIn kw.data (pyLower query.data)))
    + qws.countP (fun w => pyIn w (pyLower a.content.data))

/-! ### The semantic search wrapper (`VectorSearch.semantic_search`) -/

/-- The embedding-based branch of `semantic_search` (encode the query with
the external SentenceTransformer model, rank by cosine similarity). The model
is an external capability, so the whole branch is abstracted as a fallible
function; `Except.error` models any exception raised inside the `try` block. -/
def VectorPath : Type := String → Nat → Except String (List Scored)

/-- Model of `VectorSearch.semantic_search`: if the model or the precomputed
embeddings are unavailable (`vp = none`) the keyword fallback runs; otherwise
the vector branch runs and any exception it raises is caught and answered by
the keyword fallback. -/
def semantic_search (vp : Option VectorPath) (corpus : List Article)
    (query : String) (top_k : Nat) : List Scored :=
  match vp with
  | none => keyword_search corpus query top_k
  | some f =>
    match f query top_k with
    | Except.ok rs => rs
    | Except.error _ => keyword_search corpus query top_k

/-! ### The fixed article corpus (`VectorSearch.load_articles`) -/

/-- Article 1 of the fixed corpus loaded by `VectorSearch.load_articles`. -/
def art1 : Article where
  id := "1"
  title := "Acne: Diagnosis and Treatment"
  content := "Acne is a common skin condition that occurs when hair follicles become clogged with oil and dead skin cells. It causes whiteheads, blackheads, and pimples. Acne is most common among teenagers, though it affects people of all ages.\n\n                Treatment options include:\n                - Benzoyl peroxide: Kills acne-causing bacteria and reduces inflammation\n                - Salicylic acid: Unclogs pores and prevents new breakouts\n                - Retinoids: Reduce oil production and help prevent clogged pores\n                - Antibiotics: Reduce bacteria and inflammation\n                - Niacinamide: Reduces inflammation and regulates oil production\n\n                For best results, use a gentle cleanser, avoid picking at blemishes, and always wear sunscreen."
  url := "https://www.aad.org/public/diseases/acne-and-rosacea/acne"
  source := "American Academy of Dermatology"
  category := "Conditions"
  keywords := ["acne", "breakout", "pimple", "treatment", "benzoyl peroxide", "salicylic acid"]

/-- Article 2 of the fixed corpus loaded by `VectorSearch.load_articles`. -/
def art2 : Article where
  id := "2"
  title := "Retinoids: The Gold Standard for Anti-Aging"
  content := "Retinoids are vitamin A derivatives that are considered the gold standard for anti-aging skincare. They work by increasing cell turnover, boosting collagen production, and reducing the appearance of fine lines and wrinkles.\n\n                Benefits include:\n                - Reduces fine lines and wrinkles\n                - Improves skin texture and tone\n                - Fades dark spots and hyperpigmentation\n                - Unclogs pores and reduces acne\n                - Boosts collagen production\n\n                Start with a low concentration (0.025% or 0.05%) and gradually increase. Apply at night, as retinoids can make skin sun-sensitive. Always use sunscreen during the day."
  url := "https://www.paulaschoice.com/skin-care-advice/anti-aging-wrinkles/how-retinol-works"
  source := "Paula\x27s Choice Skincare"
  category := "Ingredients"
  keywords := ["retinol", "retinoid", "wrinkles", "aging", "anti-aging", "tretinoin", "collagen"]

/-- Article 3 of the fixed corpus loaded by `VectorSearch.load_articles`. -/
def art3 : Article where
  id := "3"
  title := "How to Choose the Best Sunscreen for Your Skin"
  content := "Sunscreen is the single most important step in any skincare routine. It protects against UV damage, prevents premature aging, and reduces skin cancer risk.\n\n                Key factors when choosing sunscreen:\n                - SPF 30 or higher: Blocks 97% of UVB rays\n                - Broad-spectrum: Protects against both UVA and UVB rays\n                - Water-resistant: Stays effective for 40-80 minutes while swimming or sweating\n                - Mineral vs. chemical: Both are effective, choose based on preference\n\n                Apply generously (about 1/4 teaspoon for face) and reapply every 2 hours or after swimming/sweating."
  url := "https://www.skincancer.org/blog/how-to-choose-the-best-sunscreen-for-your-skin/"
  source := "Skin Cancer Foundation"
  category := "Basics"
  keywords := ["sunscreen", "spf", "sun protection", "aging", "prevention", "uva", "uvb", "mineral"]

/-- Article 4 of the fixed corpus loaded by `VectorSearch.load_articles`. -/
def art4 : Article where
  id := "4"
  title := "Understanding Dry Skin"
  content := "Dry skin (xerosis) occurs when your skin loses too much water or oil. It can feel tight, rough, flaky, or itchy. Common causes include cold weather, low humidity, hot showers, and harsh soaps.\n\n                Treatment strategies:\n                - Use gentle, fragrance-free cleansers\n                - Apply moisturizer immediately after bathing\n                - Look for ingredients like hyaluronic acid, ceramides, and glycerin\n                - Avoid hot water and limit shower time\n                - Use a humidifier in dry environments\n\n                For severe dryness, consider seeing a dermatologist to rule out conditions like eczema or psoriasis."
  url := "https://www.aad.org/public/diseases/a-z/dry-skin-overview"
  source := "American Academy of Dermatology"
  category := "Conditions"
  keywords := ["dry", "dehydrated", "moisturizer", "hydration", "eczema", "ceramides"]

/-- Article 5 of the fixed corpus loaded by `VectorSearch.load_articles`. -/
def art5 : Article where
  id := "5"
  title := "Building Your Skincare Routine"
  content := "A good skincare routine doesn\x27t need to be complicated. Start with the basics and add products as needed.\n\n                Morning routine:\n                1. Cleanser - Remove oil and debris\n                2. Toner (optional) - Balance pH\n                3. Serum - Target specific concerns\n                4. Moisturizer - Hydrate and protect\n                5. Sunscreen - Always the last step (SPF 30+)\n\n                Evening routine:\n                1. Cleanser - Remove makeup, sunscreen, and dirt\n                2. Exfoliant (2-3x per week) - Remove dead skin cells\n                3. Serum/Treatment - Active ingredients work overnight\n                4. Moisturizer - Repair and hydrate\n\n                Be consistent and patient - it takes 4-6 weeks to see results."
  url := "https://www.paulaschoice.com/skin-care-advice/skin-care-how-tos/how-to-put-together-a-skin-care-routine"
  source := "Paula\x27s Choice Skincare"
  category := "Routines"
  keywords := ["routine", "regimen", "steps", "basics", "cleanser", "moisturizer", "order", "morning", "evening"]

/-- Article 6 of the fixed corpus loaded by `VectorSearch.load_articles`. -/
def art6 : Article where
  id := "6"
  title := "Dark Circles Under Eyes"
  content := "Dark circles under the eyes can be caused by genetics, aging, lack of sleep, allergies, or hyperpigmentation. The thin skin under the eyes makes blood vessels more visible.\n\n                Treatment options:\n                - Caffeine eye creams: Constrict blood vessels\n                - Vitamin C serums: Brighten and reduce pigmentation\n                - Retinol: Thicken skin and reduce visibility of blood vessels\n                - Cold compresses: Reduce swelling\n                - Get adequate sleep: 7-9 hours per night\n                - Stay hydrated: Drink plenty of water\n\n                For severe or sudden dark circles, consult a dermatologist to rule out underlying conditions."
  url := "https://dermnetnz.org/topics/dark-circles-under-the-eyes"
  source := "DermNet NZ"
  category := "Conditions"
  keywords := ["dark circles", "eye bags", "puffiness", "under eye", "periorbital", "caffeine"]

/-- Article 7 of the fixed corpus loaded by `VectorSearch.load_articles`. -/
def art7 : Article where
  id := "7"
  title := "Hyperpigmentation: Dark Spots and Treatment"
  content := "Hyperpigmentation occurs when the skin produces too much melanin, causing dark spots or patches. Common causes include sun damage, acne scarring, hormonal changes, and inflammation.\n\n                Effective treatments:\n                - Vitamin C: Brightens and inhibits melanin production\n                - Niacinamide: Reduces melanin transfer to skin cells\n                - Alpha arbutin: Lightens dark spots\n                - Retinoids: Increase cell turnover and fade spots\n                - Chemical peels: Remove top layers of pigmented skin\n                - Sunscreen: Prevents further darkening (essential!)\n\n                Results take 3-6 months. Always use SPF 30+ daily to prevent worsening."
  url := "https://www.aad.org/public/everyday-care/skin-care-secrets/routine/fade-dark-spots"
  source := "American Academy of Dermatology"
  category := "Conditions"
  keywords := ["hyperpigmentation", "dark spots", "melasma", "pigmentation", "discoloration", "brightening"]

/-- Article 8 of the fixed corpus loaded by `VectorSearch.load_articles`. -/
def art8 : Article where
  id := "8"
  title := "Vitamin C for Skin: Benefits and Usage"
  content := "Vitamin C (ascorbic acid) is a powerful antioxidant that brightens skin, reduces hyperpigmentation, and protects against environmental damage.\n\n                Key benefits:\n                - Brightens dull skin and evens tone\n                - Fades dark spots and hyperpigmentation\n                - Boosts collagen production\n                - Protects against free radical damage\n                - Enhances sunscreen effectiveness\n\n                How to use:\n                - Apply in the morning for antioxidant protection\n                - Use 10-20% concentration for best results\n                - Store in dark, airtight container (vitamin C degrades with light/air)\n                - Pair with sunscreen for maximum benefits\n                - Start with lower concentration if you have sensitive skin"
  url := "https://www.paulaschoice.com/skin-care-advice/ingredient-spotlight/vitamin-c"
  source := "Paula\x27s Choice Skincare"
  category := "Ingredients"
  keywords := ["vitamin c", "antioxidant", "brightening", "serum", "ascorbic acid", "collagen"]

/-- Article 9 of the fixed corpus loaded by `VectorSearch.load_articles`. -/
def art9 : Article where
  id := "9"
  title := "Niacinamide: The Multi-Tasking Ingredient"
  content := "Niacinamide (vitamin B3) is a gentle, versatile ingredient that works for all skin types. It addresses multiple skin concerns without irritation.\n\n                Benefits:\n                - Reduces the appearance of large pores\n                - Regulates oil production\n                - Minimizes redness and inflammation\n                - Brightens skin tone\n                - Strengthens skin barrier\n                - Works well with other active ingredients\n\n                Use 5-10% concentration for best results. Can be used morning and evening. Safe to combine with vitamin C, retinoids, and AHAs/BHAs."
  url := "https://www.paulaschoice.com/skin-care-advice/ingredient-spotlight/niacinamide"
  source := "Paula\x27s Choice Skincare"
  category := "Ingredients"
  keywords := ["niacinamide", "vitamin b3", "pores", "oil control", "barrier", "redness"]

/-- Article 10 of the fixed corpus loaded by `VectorSearch.load_articles`. -/
def art10 : Article where
  id := "10"
  title := "AHA vs BHA: Chemical Exfoliants Explained"
  content := "Chemical exfoliants use acids to dissolve dead skin cells, revealing smoother, brighter skin underneath.\n\n                AHAs (Alpha Hydroxy Acids):\n                - Glycolic acid, lactic acid, mandelic acid\n                - Water-soluble (work on skin surface)\n                - Best for: Dry skin, sun damage, fine lines\n                - Benefits: Brightens, evens tone, improves texture\n\n                BHAs (Beta Hydroxy Acids):\n                - Salicylic acid\n                - Oil-soluble (penetrates into pores)\n                - Best for: Oily skin, acne, blackheads\n                - Benefits: Unclogs pores, reduces inflammation\n\n                Start with 2-3 times per week, increase gradually. Always use sunscreen."
  url := "https://www.paulaschoice.com/skin-care-advice/exfoliants/difference-between-aha-and-bha-exfoliants"
  source := "Paula\x27s Choice Skincare"
  category := "Ingredients"
  keywords := ["aha", "bha", "glycolic acid", "salicylic acid", "exfoliation", "chemical exfoliant"]

/-- Article 11 of the fixed corpus loaded by `VectorSearch.load_articles`. -/
def art11 : Article where
  id := "11"
  title := "Rosacea: Signs and Symptoms"
  content := "Rosacea is a chronic inflammatory skin condition that causes redness, flushing, and visible blood vessels on the face. It can also cause acne-like bumps.\n\n                Common symptoms:\n                - Facial redness (especially nose and cheeks)\n                - Visible blood vessels\n                - Bumps and pimples\n                - Eye irritation\n                - Thickened skin (in advanced cases)\n\n                Triggers to avoid:\n                - Hot beverages and spicy foods\n                - Alcohol\n                - Extreme temperatures\n                - Sun exposure\n                - Harsh skincare products\n\n                Treatment includes gentle skincare, prescription medications, and avoiding triggers. See a dermatologist for proper diagnosis."
  url := "https://www.aad.org/public/diseases/rosacea/what-is/symptoms"
  source := "American Academy of Dermatology"
  category := "Conditions"
  keywords := ["rosacea", "redness", "sensitive", "facial", "flushing", "inflammation"]

/-- Article 12 of the fixed corpus loaded by `VectorSearch.load_articles`. -/
def art12 : Article where
  id := "12"
  title := "Hyaluronic Acid: The Hydration Hero"
  content := "Hyaluronic acid (HA) is a humectant that can hold up to 1,000 times its weight in water, making it incredibly effective for hydration.\n\n                Benefits:\n                - Deeply hydrates without feeling heavy\n                - Plumps fine lines and wrinkles\n                - Suitable for all skin types (even oily)\n                - Helps other products absorb better\n                - Non-irritating and gentle\n\n                How to use:\n                - Apply to damp skin for best absorption\n                - Layer under moisturizer to seal in hydration\n                - Use morning and evening\n                - Look for multiple molecular weights for deeper penetration\n\n                Works well with all other ingredients and is safe for sensitive skin."
  url := "https://www.paulaschoice.com/skin-care-advice/ingredient-spotlight/hyaluronic-acid"
  source := "Paula\x27s Choice Skincare"
  category := "Ingredients"
  keywords := ["hyaluronic acid", "hydration", "moisture", "plumping", "humectant", "water"]

/-- The fixed 12-article corpus of `VectorSearch.load_articles`. -/
def articles : List Article := [art1, art2, art3, art4, art5, art6, art7, art8, art9, art10, art11, art12]
/-! ### The learning-hub article matching
(`learning_hub_handler.get_articles_for_keywords` /
`get_articles_for_conditions`) -/

/-- An article of the predefined learning-hub database. -/
structure LHArticle where
  id : String
  title : String
  category : String
  summary : String
  url : String
  source : String
  keywords : List String
  relevance_score : ℚ
deriving DecidableEq, Repr

/-- Article 1 of the predefined learning-hub article database in `get_articles_for_keywords`. -/
def lhArt1 : LHArticle where
  id := "1"
  title := "Acne: Diagnosis and Treatment"
  category := "Conditions"
  summary := "Comprehensive guide to acne causes, types, and treatment options from board-certified dermatologists."
  url := "https://www.aad.org/public/diseases/acne-and-rosacea/acne"
  source := "American Academy of Dermatology"
  keywords := ["acne", "breakout", "pimple", "treatment", "benzoyl peroxide"]
  relevance_score := 0.95

/-- Article 2 of the predefined learning-hub article database in `get_articles_for_keywords`. -/
def lhArt2 : LHArticle where
  id := "2"
  title := "Retinoids: The Gold Standard for Anti-Aging"
  category := "Ingredients"
  summary := "How retinol and retinoids work to reduce wrinkles, improve texture, and boost collagen production."
  url := "https://www.paulaschoice.com/skin-care-advice/anti-aging-wrinkles/how-retinol-works"
  source := "Paula\x27s Choice Skincare"
  keywords := ["retinol", "retinoid", "wrinkles", "aging", "anti-aging", "tretinoin"]
  relevance_score := 0.92

/-- Article 3 of the predefined learning-hub article database in `get_articles_for_keywords`. -/
def lhArt3 : LHArticle where
  id := "3"
  title := "How to Choose the Best Sunscreen for Your Skin"
  category := "Basics"
  summary := "Everything you need to know about SPF, broad-spectrum protection, and choosing the right sunscreen for your skin type."
  url := "https://www.skincancer.org/blog/how-to-choose-the-best-sunscreen-for-your-skin/"
  source := "Skin Cancer Foundation"
  keywords := ["sunscreen", "spf", "sun protection", "aging", "prevention", "uva", "uvb"]
  relevance_score := 0.9

/-- Article 4 of the predefined learning-hub article database in `get_articles_for_keywords`. -/
def lhArt4 : LHArticle where
  id := "4"
  title := "Dry Skin: Overview"
  category := "Conditions"
  summary := "Learn about dry skin causes, symptoms, and the best moisturizers and treatments."
  url := "https://www.aad.org/public/diseases/a-z/dry-skin-overview"
  source := "American Academy of Dermatology"
  keywords := ["dry", "dehydrated", "moisturizer", "hydration", "eczema"]
  relevance_score := 0.88

/-- Article 5 of the predefined learning-hub article database in `get_articles_for_keywords`. -/
def lhArt5 : LHArticle where
  id := "5"
  title := "Building Your Skincare Routine"
  category := "Routines"
  summary := "Expert guide to creating an effective AM and PM skincare routine with the right order of products."
  url := "https://www.paulaschoice.com/skin-care-advice/skin-care-how-tos/how-to-put-together-a-skin-care-routine"
  source := "Paula\x27s Choice Skincare"
  keywords := ["routine", "regimen", "steps", "basics", "cleanser", "moisturizer", "order"]
  relevance_score := 0.85

/-- Article 6 of the predefined learning-hub article database in `get_articles_for_keywords`. -/
def lhArt6 : LHArticle where
  id := "6"
  title := "Dark Circles Under Eyes"
  category := "Conditions"
  summary := "Understanding the causes of dark circles and effective treatments including eye creams and lifestyle changes."
  url := "https://dermnetnz.org/topics/dark-circles-under-the-eyes"
  source := "DermNet NZ"
  keywords := ["dark circles", "eye bags", "puffiness", "under eye", "periorbital"]
  relevance_score := 0.87

/-- Article 7 of the predefined learning-hub article database in `get_articles_for_keywords`. -/
def lhArt7 : LHArticle where
  id := "7"
  title := "Hyperpigmentation: Causes and Treatment"
  category := "Conditions"
  summary := "Learn about dark spots, melasma, and post-inflammatory hyperpigmentation with evidence-based treatments."
  url := "https://www.aad.org/public/everyday-care/skin-care-secrets/routine/fade-dark-spots"
  source := "American Academy of Dermatology"
  keywords := ["hyperpigmentation", "dark spots", "melasma", "pigmentation", "discoloration"]
  relevance_score := 0.89

/-- Article 8 of the predefined learning-hub article database in `get_articles_for_keywords`. -/
def lhArt8 : LHArticle where
  id := "8"
  title := "Vitamin C for Skin: Benefits and How to Use"
  category := "Ingredients"
  summary := "The science behind vitamin C serums for brightening, antioxidant protection, and collagen synthesis."
  url := "https://www.paulaschoice.com/skin-care-advice/ingredient-spotlight/vitamin-c"
  source := "Paula\x27s Choice Skincare"
  keywords := ["vitamin c", "antioxidant", "brightening", "serum", "ascorbic acid"]
  relevance_score := 0.86

/-- Article 9 of the predefined learning-hub article database in `get_articles_for_keywords`. -/
def lhArt9 : LHArticle where
  id := "9"
  title := "Niacinamide: The All-Rounder Ingredient"
  category := "Ingredients"
  summary := "How niacinamide reduces pores, regulates oil, and improves skin barrier function."
  url := "https://www.paulaschoice.com/skin-care-advice/ingredient-spotlight/niacinamide"
  source := "Paula\x27s Choice Skincare"
  keywords := ["niacinamide", "vitamin b3", "pores", "oil control", "barrier"]
  relevance_score := 0.84

/-- Article 10 of the predefined learning-hub article database in `get_articles_for_keywords`. -/
def lhArt10 : LHArticle where
  id := "10"
  title := "Chemical Exfoliation: AHAs and BHAs"
  category := "Ingredients"
  summary := "Understanding the difference between glycolic acid, lactic acid, and salicylic acid for exfoliation."
  url := "https://www.paulaschoice.com/skin-care-advice/exfoliants/difference-between-aha-and-bha-exfoliants"
  source := "Paula\x27s Choice Skincare"
  keywords := ["aha", "bha", "glycolic acid", "salicylic acid", "exfoliation", "chemical exfoliant"]
  relevance_score := 0.91

/-- Article 11 of the predefined learning-hub article database in `get_articles_for_keywords`. -/
def lhArt11 : LHArticle where
  id := "11"
  title := "Rosacea: Signs and Symptoms"
  category := "Conditions"
  summary := "Identifying and managing rosacea with gentle skincare and medical treatments."
  url := "https://www.aad.org/public/diseases/rosacea/what-is/symptoms"
  source := "American Academy of Dermatology"
  keywords := ["rosacea", "redness", "sensitive", "facial", "flushing"]
  relevance_score := 0.83

/-- Article 12 of the predefined learning-hub article database in `get_articles_for_keywords`. -/
def lhArt12 : LHArticle where
  id := "12"
  title := "Hyaluronic Acid: The Moisture Magnet"
  category := "Ingredients"
  summary := "How hyaluronic acid attracts and retains moisture for plumper, hydrated skin."
  url := "https://www.paulaschoice.com/skin-care-advice/ingredient-spotlight/hyaluronic-acid"
  source := "Paula\x27s Choice Skincare"
  keywords := ["hyaluronic acid", "hydration", "moisture", "plumping", "humectant"]
  relevance_score := 0.82

/-- The predefined 12-article learning-hub database in `get_articles_for_keywords`. -/
def lhArticles : List LHArticle := [lhArt1, lhArt2, lhArt3, lhArt4, lhArt5, lhArt6, lhArt7, lhArt8, lhArt9, lhArt10, lhArt11, lhArt12]
/-- Per-article score of `get_articles_for_keywords`: one point for every
input keyword (list, duplicates counted) that matches some article keyword by
substring containment in either direction. -/
def lhScore (keywords : List String) (a : LHArticle) : Nat :=
  (keywords.filter (fun k =>
    a.keywords.any (fun kw => pyIn kw.data k.data || pyIn k.data kw.data))).length

/-- Model of `get_articles_for_keywords`: with an empty keyword list every article is
returned with `match_score = 0`; otherwise articles with positive score are
kept and stable-sorted descending by `match_score`. The returned pair
`(article, n)` models the article dict with its added `match_score` field. -/
def get_articles_for_keywords (keywords : List String) : List (LHArticle × Nat) :=
  if keywords.isEmpty then lhArticles.map (fun a => (a, 0))
  else
    sortDescBy (fun p => p.2)
      (lhArticles.filterMap (fun a =>
        let s := lhScore keywords a
        if 0 < s then some (a, s) else none))

/-- The condition-label normalization of `get_articles_for_conditions`:
`cond.lower().replace('_', ' ')`. -/
def normLH (cond : String) : String :=
  String.mk (cond.data.map (fun c =>
    let l := c.toLower
    if l = '_' then ' ' else l))

/-- Model of `get_articles_for_conditions`: normalize each condition label and match
the resulting keywords. -/
def get_articles_for_conditions (conditions : List String) : List (LHArticle × Nat) :=
  get_articles_for_keywords (conditions.map normLH)

/-! ### Product recommendations (`handler.get_product_recommendations`) -/

/-- A product item as used by `get_product_recommendations`: only `name` and
`target_conditions` are consulted; equality is Python dict equality. -/
structure Product where
  name : String
  target_conditions : List String
deriving DecidableEq, Repr

/-- The `condition_mapping` table of `get_product_recommendations`;
unlisted conditions map to `[]` (`condition_mapping.get(..., [])`). -/
def conditionMapping (c : String) : List String :=
  if c = "eye_bags" then ["Eye Bags", "Dark Circles", "Puffiness"]
  else if c = "dark_circles" then ["Dark Circles", "Eye Bags", "Puffiness"]
  else if c = "hormonal_acne" then ["Acne", "Oily Skin", "Blackheads"]
  else if c = "acne" then ["Acne", "Oily Skin", "Blackheads"]
  else if c = "dark_spots" then ["Dark Spots", "Hyperpigmentation", "Uneven Skin Tone"]
  else if c = "wrinkles" then ["Wrinkles", "Fine Lines", "Aging Skin"]
  else if c = "dry_skin" then ["Dry Skin", "Sensitive Skin"]
  else if c = "oily_skin" then ["Oily Skin", "Large Pores", "Acne"]
  else if c = "healthy" then ["Healthy Skin", "Sunscreen"]
  else []

/-- The condition normalization of `get_product_recommendations`:
`condition.lower().replace(' ', '_').replace('-', '_')`. -/
def normalizeCond (condition : String) : String :=
  String.mk (condition.data.map (fun c =>
    let l := c.toLower
    if l = ' ' ∨ l = '-' then '_' else l))

/-- Model of `matched_products`: products whose `target_conditions` contain any of the
mapped target conditions, in scan order. -/
def matchedProducts (allProducts : List Product) (condition : String) : List Product :=
  let targets := conditionMapping (normalizeCond condition)
  allProducts.filter (fun p => targets.any (fun tc => p.target_conditions.contains tc))

/-- Model of `general_products`: products tagged `"Healthy Skin"` that are not already
in `matched_products` (Python `p not in matched_products`). -/
def generalProducts (allProducts matched : List Product) : List Product :=
  allProducts.filter (fun p =>
    p.target_conditions.contains "Healthy Skin" && !(matched.contains p))

/-- Model of `get_product_recommendations` (the merge step, lines 538-548): keep the
first `limit` matches, topping up with general products when short. -/
def get_product_recommendations (allProducts : List Product) (condition : String)
    (limit : Nat) : List Product :=
  let matched := matchedProducts allProducts condition
  if limit ≤ matched.length then matched.take limit
  else (matched ++ generalProducts allProducts matched).take limit

/-! ### Direct-invocation request validation (`rag_query_handler.lambda_handler`) -/

/-- A direct-invocation event for the RAG query handler; `""` models an
absent or empty (falsy) string field, `top_k` comes from
`event.get('top_k', 5)`. -/
structure DirectEvent where
  action : String
  query : String
  ns : String
  top_k : Int
deriving DecidableEq, Repr

/-- The validation step of `lambda_handler`:
`if not all([action, query_text]): return error_response(...)`. `some msg`
is the rejected-request branch; `none` means the request proceeds to
embedding and Pinecone search. `top_k` is not inspected. -/
def validate_direct (e : DirectEvent) : Option String :=
  if e.action = "" ∨ e.query = "" then
    some "Missing required parameters: action, query"
  else none

/-! ### The cosine-similarity helper (`VectorSearch._cosine_similarity`) -/

/-- Model of `np.dot` of two equal-length vectors. -/
def dotR (v w : List ℝ) : ℝ := (List.zipWith (fun a b => a * b) v w).sum

/-- Model of `np.linalg.norm`: the Euclidean norm. -/
noncomputable def normR (v : List ℝ) : ℝ :=
  Real.sqrt ((v.map (fun x => x ^ 2)).sum)

/-- The single-vector branch of `_cosine_similarity`:
`dot / norm_product if norm_product > 0 else 0`. -/
noncomputable def cosine_similarity_single (v1 v2 : List ℝ) : ℝ :=
  if 0 < normR v1 * normR v2 then dotR v1 v2 / (normR v1 * normR v2) else 0

/-- The matrix branch of `_cosine_similarity`:
`np.divide(dot_products, norms, where=norms!=0)` with **no `out=`
argument** — numpy documents that output entries where the mask is false
remain uninitialized. An uninitialized (unspecified) entry is modelled as
`none`; a computed entry as `some`. -/
noncomputable def cosine_similarity_matrix (v1 : List ℝ) (m : List (List ℝ)) :
    List (Option ℝ) :=
  m.map (fun row =>
    let nrm := normR row * normR v1
    if nrm = 0 then none else some (dotR row v1 / nrm))

/-! ### The success path of `semantic_search` (lines 336-356)

The `try` block of `semantic_search` computes a similarity per corpus article
(`self.embeddings` holds one row per article), ranks indices with
`np.argsort(similarities)[::-1][:top_k]` and builds one result per index.
The similarity values come from the external embedding model, so they are an
arbitrary real vector here; the index ranking and truncation are in-repo
logic and are modelled concretely. -/

/-- Fallback article for out-of-range indexing (`self.articles[idx]` is only
reached with `idx < len(similarities)`, and the embeddings matrix has one row
per article). -/
def dummyArticle : Article where
  id := ""
  title := ""
  content := ""
  url := ""
  source := ""
  category := ""
  keywords := []

/-- A semantic-search result: the article copy (content trimmed) with the
float cosine similarity the code stores as `relevance_score`. -/
structure SemScored where
  article : Article
  relevance_score : ℝ

/-- Insert index `i` into an index list sorted ascending by similarity value. -/
noncomputable def insertAscR (v : List ℝ) (i : Nat) : List Nat → List Nat
  | [] => [i]
  | j :: js => if v.getD i 0 ≤ v.getD j 0 then i :: j :: js else j :: insertAscR v i js

/-- Model of `np.argsort(v)`: the indices `0, ..., v.length - 1` sorted
ascending by value (numpy leaves tie order implementation-defined; any
permutation of the index range is faithful for the properties proved here). -/
noncomputable def npArgsort (v : List ℝ) : List Nat :=
  (List.range v.length).foldr (insertAscR v) []

/-- Model of lines 344-353: `top_indices = np.argsort(similarities)[::-1][:top_k]`,
then one result per index with the article copy, trimmed content and the
float similarity as `relevance_score`. -/
noncomputable def semanticResults (corpus : List Article) (similarities : List ℝ)
    (top_k : Nat) : List SemScored :=
  (((npArgsort similarities).reverse).take top_k).map (fun idx =>
    { article :=
        { corpus.getD idx dummyArticle with
          content := trimContent (corpus.getD idx dummyArticle).content }
      relevance_score := similarities.getD idx 0 })

theorem length_insertAscR (v : List ℝ) (i : Nat) (l : List Nat) :
    (insertAscR v i l).length = l.length + 1 := by
  induction l with
  | nil => rfl
  | cons j js ih =>
    simp only [insertAscR]
    split
    · rfl
    · simp [ih]

theorem length_npArgsort (v : List ℝ) : (npArgsort v).length = v.length := by
  unfold npArgsort
  have h : ∀ l : List Nat, (l.foldr (insertAscR v) []).length = l.length := by
    intro l
    induction l with
    | nil => rfl
    | cons i is ih => simp [List.foldr_cons, length_insertAscR, ih]
  rw [h, List.length_range]

/-! ### Small concrete fixtures used by witnesses -/

/-- A small test article (witness input; not part of the corpus). -/
def artA : Article where
  id := "a1"
  title := "Acne Basics"
  content := "acne care guide"
  url := "u"
  source := "s"
  category := "c"
  keywords := ["acne"]

/-- Test product fixtures for the merge witnesses. -/
def prodA : Product := { name := "Foam Cleanser", target_conditions := ["Acne", "Oily Skin"] }

def prodB : Product := { name := "Daily SPF", target_conditions := ["Healthy Skin", "Sunscreen"] }

def prodC : Product := { name := "Spot Gel", target_conditions := ["Acne", "Healthy Skin"] }

/-! ### Helper lemmas about `scoredList` and `keyword_search` -/

theorem mem_scoredList {corpus : List Article} {q : String} {p : Nat × Scored} :
    p ∈ scoredList corpus q ↔
      ∃ a, a ∈ corpus ∧ 0 < keywordScore q a ∧
        p = (keywordScore q a, mkScored (keywordScore q a) a) := by
  unfold scoredList
  rw [List.mem_filterMap]
  constructor
  · rintro ⟨a, ha, hfa⟩
    by_cases hs : 0 < keywordScore q a
    · rw [if_pos hs] at hfa
      exact ⟨a, ha, hs, (Option.some_inj.mp hfa).symm⟩
    · rw [if_neg hs] at hfa
      cases hfa
  · rintro ⟨a, ha, hs, rfl⟩
    exact ⟨a, ha, by rw [if_pos hs]⟩

theorem scoredList_length (corpus : List Article) (q : String) :
    (scoredList corpus q).length =
      (corpus.filter (fun a => 0 < keywordScore q a)).length := by
  induction corpus with
  | nil => rfl
  | cons a l ih =>
    simp only [scoredList, List.filterMap_cons] at *
    by_cases h : 0 < keywordScore q a <;>
      simp [h, List.filter_cons, ih]

theorem scoredList_rel {corpus : List Article} {q : String} {p : Nat × Scored}
    (h : p ∈ scoredList corpus q) : p.2.relevance_score = (p.1 : ℚ) / 10 := by
  obtain ⟨a, _, _, rfl⟩ := mem_scoredList.mp h
  rfl

theorem scoredList_filter_eq (corpus : List Article) (q : String) (n : Nat)
    (hn : 0 < n) :
    (scoredList corpus q).filter (fun p => p.1 == n) =
      (corpus.filter (fun a => keywordScore q a == n)).map
        (fun a => (n, mkScored n a)) := by
  induction corpus with
  | nil => rfl
  | cons a l ih =>
    simp only [scoredList, List.filterMap_cons] at *
    by_cases hs : 0 < keywordScore q a
    · by_cases he : keywordScore q a = n
      · subst he
        simp [hs, List.filter_cons, ih]
      · simp [hs, he, List.filter_cons, ih]
    · have he : ¬ keywordScore q a = n := by omega
      simp [hs, he, List.filter_cons, ih]

theorem sorted_scoredList_length_le (corpus : List Article) (q : String) :
    (sortDescBy (fun p => p.1) (scoredList corpus q)).length ≤ corpus.length := by
  rw [length_sortDescBy]
  exact List.length_filterMap_le _ _

/-- Evaluating `keyword_search` with `top_k = corpus.length` never truncates. -/
theorem keyword_search_full (corpus : List Article) (q : String) :
    keyword_search corpus q corpus.length =
      (sortDescBy (fun p => p.1) (scoredList corpus q)).map (fun p => p.2) := by
  unfold keyword_search
  rw [List.take_of_length_le (sorted_scoredList_length_le corpus q)]

theorem mem_keyword_search {corpus : List Article} {q : String} {k : Nat} {r : Scored}
    (h : r ∈ keyword_search corpus q k) :
    ∃ a, a ∈ corpus ∧ 0 < keywordScore q a ∧ r = mkScored (keywordScore q a) a := by
  unfold keyword_search at h
  rw [List.mem_map] at h
  obtain ⟨p, hp, rfl⟩ := h
  have hp2 : p ∈ sortDescBy (fun p => p.1) (scoredList corpus q) :=
    (List.take_sublist k _).subset hp
  obtain ⟨a, ha, hs, rfl⟩ := mem_scoredList.mp ((mem_sortDescBy _ _ _).mp hp2)
  exact ⟨a, ha, hs, rfl⟩

theorem keyword_search_complete {corpus : List Article} {q : String} {a : Article}
    (ha : a ∈ corpus) (hs : 0 < keywordScore q a) :
    mkScored (keywordScore q a) a ∈ keyword_search corpus q corpus.length := by
  rw [keyword_search_full]
  refine List.mem_map.mpr ⟨(keywordScore q a, mkScored (keywordScore q a) a), ?_, rfl⟩
  rw [mem_sortDescBy]
  exact mem_scoredList.mpr ⟨a, ha, hs, rfl⟩

/-! ### Claim theorems -/

/-- C1: for every query string and every document, `keyword_search` scores
exactly per the claimed formula (+3 once for a title hit by any lower-cased
query word, +2 per document keyword contained in the lower-cased query, +1
per query word contained in the body), and documents whose total score is 0
are excluded from the result list entirely: every result arises from a
positively scoring corpus article, and every positively scoring corpus
article is present when `top_k` does not truncate. -/
theorem keyword_scoring_formula_and_zero_exclusion :
    (∀ q a, keywordScore q a = claimScore q a)
    ∧ (∀ (corpus : List Article) q k r, r ∈ keyword_search corpus q k →
        ∃ a, a ∈ corpus ∧ 0 < keywordScore q a ∧ r = mkScored (keywordScore q a) a)
    ∧ (∀ (corpus : List Article) q a, a ∈ corpus → 0 < keywordScore q a →
        mkScored (keywordScore q a) a ∈ keyword_search corpus q corpus.length) := by
  refine ⟨?_, fun _ _ _ _ h => mem_keyword_search h,
    fun _ _ _ ha hs => keyword_search_complete ha hs⟩
  intro q a
  unfold keywordScore claimScore
  by_cases h : ((pyWords (pyLower q.data)).dedup.any
      (fun w => pyIn w (pyLower a.title.data))) <;>
    simp [h, List.countP_eq_length_filter]

/-- Witness for C1 at a concrete article and query. -/
theorem keyword_scoring_formula_and_zero_exclusion_witness :
    artA ∈ [artA] ∧ 0 < keywordScore "acne" artA ∧
      mkScored (keywordScore "acne" artA) artA ∈ keyword_search [artA] "acne" 1 :=
  ⟨List.mem_singleton.mpr rfl, by decide,
    keyword_scoring_formula_and_zero_exclusion.2.2 [artA] "acne" artA
      (List.mem_singleton.mpr rfl) (by decide)⟩

/-- C2: whenever the vector branch is unavailable or fails (the model or
embeddings are missing, or the branch raises), `semantic_search` returns the
keyword-fallback result list — a plain list, never an error. -/
theorem semantic_search_falls_back (vp : Option VectorPath) (corpus : List Article)
    (q : String) (k : Nat)
    (h : vp = none ∨ ∃ f e, vp = some f ∧ f q k = Except.error e) :
    semantic_search vp corpus q k = keyword_search corpus q k := by
  rcases h with rfl | ⟨f, e, rfl, hf⟩
  · rfl
  · simp [semantic_search, hf]

/-- Witness for C2: embedding provider unavailable on the real corpus. -/
theorem semantic_search_falls_back_witness :
    semantic_search none articles "acne" 3 = keyword_search articles "acne" 3 :=
  semantic_search_falls_back none articles "acne" 3 (Or.inl rfl)

/-- C6: for every query and positive `top_k = k`, the result length is
`min k (number of documents that score non-zero / match the query)` on both
search paths: the keyword path returns `min k (number of non-zero-scoring
corpus documents)`, and the semantic path's `argsort(...)[::-1][:top_k]`
truncation returns `min k corpus.length` results for every similarity vector
with one entry per corpus article (on that path every document is a
candidate match). -/
theorem search_topk_length (corpus : List Article) (q : String) (k : Nat)
    (similarities : List ℝ) (hk : 0 < k)
    (hsims : similarities.length = corpus.length) :
    (keyword_search corpus q k).length =
        min k ((corpus.filter (fun a => 0 < keywordScore q a)).length)
    ∧ (semanticResults corpus similarities k).length = min k corpus.length := by
  constructor
  · unfold keyword_search
    rw [List.length_map, List.length_take, length_sortDescBy, scoredList_length]
  · unfold semanticResults
    rw [List.length_map, List.length_take, List.length_reverse, length_npArgsort,
      hsims]

/-- Witness for C6 at a concrete corpus, query and similarity vector. -/
theorem search_topk_length_witness :
    0 < 1 ∧ [(1 : ℝ) / 2].length = [artA].length ∧
      ((keyword_search [artA] "acne" 1).length =
          min 1 (([artA].filter (fun a => 0 < keywordScore "acne" a)).length)
        ∧ (semanticResults [artA] [(1 : ℝ) / 2] 1).length = min 1 [artA].length) :=
  ⟨Nat.one_pos, rfl, search_topk_length [artA] "acne" 1 [(1 : ℝ) / 2] Nat.one_pos rfl⟩

/-- C8: keyword ranking is deterministic — the embedded `keyword_search` is a
pure function of the corpus state, the query and `top_k`, so two invocations
with equal inputs return the identical ordered result list. -/
theorem keyword_search_deterministic (corpus : List Article) (q q2 : String)
    (k k2 : Nat) (hq : q = q2) (hk : k = k2) :
    keyword_search corpus q k = keyword_search corpus q2 k2 := by
  subst hq hk
  rfl

/-- Witness for C8 at concrete inputs. -/
theorem keyword_search_deterministic_witness :
    keyword_search [artA] "acne" 2 = keyword_search [artA] "acne" 2 :=
  keyword_search_deterministic [artA] "acne" "acne" 2 2 rfl rfl

/-- C9 (amended): the relevance score attached to every keyword-search
result is the article's raw integer score **divided by 10** (the
`score / 10.0` normalization in the source), not the raw integer itself. -/
theorem keyword_search_relevance_is_score_div_ten (corpus : List Article)
    (q : String) (k : Nat) (r : Scored) (h : r ∈ keyword_search corpus q k) :
    ∃ a, a ∈ corpus ∧ 0 < keywordScore q a ∧ r = mkScored (keywordScore q a) a ∧
      r.relevance_score = (keywordScore q a : ℚ) / 10 := by
  obtain ⟨a, ha, hs, rfl⟩ := mem_keyword_search h
  exact ⟨a, ha, hs, rfl, rfl⟩

/-- Concrete evaluation: searching the one-article corpus `[artA]` for
`"acne"` returns exactly that article (its score is 6: title +3,
keyword +2, content +1). -/
theorem keyword_search_artA_eq :
    keyword_search [artA] "acne" 1 = [mkScored (keywordScore "acne" artA) artA] := rfl

/-- Witness for the amended C9 at a concrete search. -/
theorem keyword_search_relevance_is_score_div_ten_witness :
    mkScored (keywordScore "acne" artA) artA ∈ keyword_search [artA] "acne" 1 ∧
      ∃ a, a ∈ [artA] ∧ 0 < keywordScore "acne" a ∧
        mkScored (keywordScore "acne" artA) artA = mkScored (keywordScore "acne" a) a ∧
        (mkScored (keywordScore "acne" artA) artA).relevance_score
          = (keywordScore "acne" a : ℚ) / 10 :=
  ⟨keyword_search_artA_eq ▸ List.mem_singleton.mpr rfl,
    keyword_search_relevance_is_score_div_ten [artA] "acne" 1
      (mkScored (keywordScore "acne" artA) artA)
      (keyword_search_artA_eq ▸ List.mem_singleton.mpr rfl)⟩

/-- C9 counterexample: on the fixed corpus, the query `"rosacea"` matches
exactly article 11 with raw integer score 6, but the reported
`relevance_score` is `6 / 10`, not the raw integer 6. -/
theorem keyword_search_relevance_not_raw_cex :
    (keyword_search articles "rosacea" 3).map (fun r => r.relevance_score)
        = [((6 : Nat) : ℚ) / 10]
    ∧ keywordScore "rosacea" art11 = 6
    ∧ (((6 : Nat) : ℚ) / 10 ≠ ((6 : Nat) : ℚ)) := by
  refine ⟨rfl, by decide, by norm_num⟩

/-- C7: the keyword ranker's output is sorted descending by score, equal
scores keep corpus order, and `top_k` truncation happens after the sort:
the truncated result is a prefix of the fully sorted result, the full result
is pairwise descending in `relevance_score` (which is monotone in the raw
integer score), and for each raw score `n > 0` the results carrying that
score are exactly the corpus articles scoring `n`, in corpus order. -/
theorem keyword_search_sorted_stable_truncation (corpus : List Article)
    (q : String) (k : Nat) :
    keyword_search corpus q k = (keyword_search corpus q corpus.length).take k
    ∧ List.Pairwise (fun r s => s.relevance_score ≤ r.relevance_score)
        (keyword_search corpus q corpus.length)
    ∧ ∀ n : Nat, 0 < n →
        (keyword_search corpus q corpus.length).filter
            (fun r => r.relevance_score == ((n : Nat) : ℚ) / 10)
          = (corpus.filter (fun a => keywordScore q a == n)).map
              (fun a => mkScored n a) := by
  refine ⟨?_, ?_, ?_⟩
  · rw [keyword_search_full]
    unfold keyword_search
    rw [List.map_take]
  · rw [keyword_search_full, List.pairwise_map]
    refine List.Pairwise.imp_of_mem ?_ (sortDescBy_sorted (fun p => p.1) _)
    intro p1 p2 h1 h2 hle
    rw [scoredList_rel ((mem_sortDescBy _ _ _).mp h1),
      scoredList_rel ((mem_sortDescBy _ _ _).mp h2)]
    exact (div_le_div_iff_of_pos_right (by norm_num)).mpr (by exact_mod_cast hle)
  · intro n hn
    rw [keyword_search_full, List.filter_map]
    have hcong : (sortDescBy (fun p => p.1) (scoredList corpus q)).filter
          ((fun r => r.relevance_score == ((n : Nat) : ℚ) / 10) ∘ (fun p => p.2))
        = (sortDescBy (fun p => p.1) (scoredList corpus q)).filter
          (fun p => p.1 == n) := by
      refine List.filter_congr ?_
      intro p hp
      have hrel := scoredList_rel ((mem_sortDescBy _ _ _).mp hp)
      simp only [Function.comp_apply, hrel, beq_iff_eq]
      have h10 : ((p.1 : ℚ) / 10 = ((n : Nat) : ℚ) / 10) ↔ p.1 = n := by
        rw [div_eq_div_iff (by norm_num) (by norm_num)]
        constructor
        · intro h
          exact_mod_cast mul_right_cancel₀ (by norm_num : (10 : ℚ) ≠ 0) h
        · intro h
          rw [h]
      simp [h10]
    rw [hcong, filter_sortDescBy, scoredList_filter_eq corpus q n hn,
      List.map_map]
    rfl

/-- Witness for C7 at a concrete corpus, query and score. -/
theorem keyword_search_sorted_stable_truncation_witness :
    0 < 6 ∧
      (keyword_search [artA] "acne" 1).filter
          (fun r => r.relevance_score == ((6 : Nat) : ℚ) / 10)
        = ([artA].filter (fun a => keywordScore "acne" a == 6)).map
            (fun a => mkScored 6 a) :=
  ⟨by decide,
    (keyword_search_sorted_stable_truncation [artA] "acne" 1).2.2 6 (by decide)⟩

/-- C3 counterexample: a request with non-empty action and query but
`top_k = -3` passes validation (it is not rejected), and an empty keyword
list makes `get_articles_for_keywords` return the entire 12-article database
— a silent wildcard match-all — refuting the claim as stated. -/
theorem malformed_query_not_fully_rejected_cex :
    validate_direct
        { action := "query", query := "acne", ns := "knowledge-base", top_k := -3 }
      = none
    ∧ (get_articles_for_keywords []).length = 12
    ∧ lhArticles.length = 12 := ⟨rfl, rfl, rfl⟩

/-- C3 (amended): an empty query text is rejected with a missing-parameter
error, but a non-positive `top_k` passes validation untouched, and an empty
keyword list is a wildcard: `get_articles_for_keywords []` returns every
article of the database with `match_score = 0`. -/
theorem malformed_query_partial_validation :
    (∀ e : DirectEvent, e.query = "" →
        validate_direct e = some "Missing required parameters: action, query")
    ∧ validate_direct
        { action := "query", query := "acne", ns := "knowledge-base", top_k := 0 }
      = none
    ∧ get_articles_for_keywords [] = lhArticles.map (fun a => (a, 0)) := by
  refine ⟨?_, rfl, rfl⟩
  intro e he
  unfold validate_direct
  rw [if_pos (Or.inr he)]

/-- Witness for the amended C3 at a concrete empty-query event. -/
theorem malformed_query_partial_validation_witness :
    validate_direct { action := "query", query := "", ns := "knowledge-base", top_k := 5 }
      = some "Missing required parameters: action, query" :=
  malformed_query_partial_validation.1
    { action := "query", query := "", ns := "knowledge-base", top_k := 5 } rfl

/-- C4: the recommendation merge returns the first `limit` matched products
when enough matched, otherwise appends the fixed "Healthy Skin" fallback
products excluding any product already matched, then truncates — so (on a
duplicate-free product scan) the output is duplicate-free and a product in
both lists appears exactly once, via the matched (priority) list. -/
theorem product_merge_dedup_and_precedence (allProducts : List Product)
    (condition : String) (limit : Nat) (h : allProducts.Nodup) :
    get_product_recommendations allProducts condition limit
      = (matchedProducts allProducts condition
          ++ generalProducts allProducts (matchedProducts allProducts condition)).take limit
    ∧ (∀ p ∈ generalProducts allProducts (matchedProducts allProducts condition),
        p ∉ matchedProducts allProducts condition)
    ∧ (get_product_recommendations allProducts condition limit).Nodup
    ∧ (limit ≤ (matchedProducts allProducts condition).length →
        get_product_recommendations allProducts condition limit
          = (matchedProducts allProducts condition).take limit) := by
  have hdisj : ∀ p ∈ generalProducts allProducts (matchedProducts allProducts condition),
      p ∉ matchedProducts allProducts condition := by
    intro p hp
    have hp' := List.mem_filter.mp hp
    rw [Bool.and_eq_true, Bool.not_eq_true'] at hp'
    intro hpm
    have : (matchedProducts allProducts condition).contains p = true := by
      rw [List.contains_iff_exists_mem_beq]
      exact ⟨p, hpm, by simp⟩
    rw [hp'.2.2] at this
    cases this
  have heq : get_product_recommendations allProducts condition limit
      = (matchedProducts allProducts condition
          ++ generalProducts allProducts (matchedProducts allProducts condition)).take limit := by
    unfold get_product_recommendations
    by_cases hl : limit ≤ (matchedProducts allProducts condition).length
    · rw [if_pos hl, List.take_append_of_le_length hl]
    · rw [if_neg hl]
  refine ⟨heq, hdisj, ?_, ?_⟩
  · rw [heq]
    refine (List.take_sublist _ _).nodup ?_
    refine List.Nodup.append (h.filter _) (h.filter _) ?_
    rw [List.disjoint_left]
    intro p hpm hpg
    exact hdisj p hpg hpm
  · intro hl
    unfold get_product_recommendations
    rw [if_pos hl]

/-- Witness for C4 at a concrete product scan. -/
theorem product_merge_dedup_and_precedence_witness :
    [prodA, prodB, prodC].Nodup ∧
      (get_product_recommendations [prodA, prodB, prodC] "acne" 3).Nodup :=
  ⟨by decide,
    (product_merge_dedup_and_precedence [prodA, prodB, prodC] "acne" 3 (by decide)).2.2.1⟩

/-- C5 counterexample: in the learning-hub path the hyphen is not replaced,
so `"Dark-Circles"` normalizes to `"dark-circles"`, matches no article, while
`"dark circles"` matches article 6 — the three spellings do not all yield the
same matched document set. -/
theorem condition_normalization_not_uniform_cex :
    get_articles_for_conditions ["Dark-Circles"] = []
    ∧ (get_articles_for_conditions ["dark circles"]).map (fun p => p.1.id) = ["6"]
    ∧ normLH "Dark-Circles" ≠ normLH "dark circles" := by
  refine ⟨by decide, by decide, by decide⟩

/-- C5 (amended): in the product-recommendation path
(`get_product_recommendations`), all three spellings normalize to the
canonical `"dark_circles"` and match the same products for every product
scan; in the learning-hub article path only `"dark circles"` and
`"dark_circles"` normalize identically and match the same articles, while
`"Dark-Circles"` keeps its hyphen (see the counterexample). -/
theorem condition_normalization_partial :
    normalizeCond "Dark-Circles" = "dark_circles"
    ∧ normalizeCond "dark circles" = "dark_circles"
    ∧ normalizeCond "dark_circles" = "dark_circles"
    ∧ (∀ (allProducts : List Product) (limit : Nat),
        get_product_recommendations allProducts "Dark-Circles" limit
            = get_product_recommendations allProducts "dark_circles" limit
        ∧ get_product_recommendations allProducts "dark circles" limit
            = get_product_recommendations allProducts "dark_circles" limit)
    ∧ normLH "dark circles" = normLH "dark_circles"
    ∧ get_articles_for_conditions ["dark circles"]
        = get_articles_for_conditions ["dark_circles"] := by
  have hc : ∀ c1 c2 : String, normalizeCond c1 = normalizeCond c2 →
      ∀ (allProducts : List Product) (limit : Nat),
        get_product_recommendations allProducts c1 limit
          = get_product_recommendations allProducts c2 limit := by
    intro c1 c2 h allProducts limit
    unfold get_product_recommendations matchedProducts
    rw [h]
  have h1 : normalizeCond "Dark-Circles" = normalizeCond "dark_circles" := by decide
  have h2 : normalizeCond "dark circles" = normalizeCond "dark_circles" := by decide
  have h3 : normLH "dark circles" = normLH "dark_circles" := by decide
  refine ⟨by decide, by decide, by decide,
    fun allProducts limit => ⟨hc _ _ h1 allProducts limit, hc _ _ h2 allProducts limit⟩,
    h3, ?_⟩
  unfold get_articles_for_conditions
  simp only [List.map]
  rw [h3]

/-- C10: the single-vector branch of `_cosine_similarity` is zero-safe (it
returns 0 on a zero norm product and never divides by zero), but in the
matrix branch `np.divide(..., where=norms!=0)` is called without `out=`, so
the entry for a zero-norm row is left uninitialized (`none` in this model)
rather than 0: for `vec1 = [1]` and rows `[[0], [1]]` the first entry is
unspecified while the second is the well-defined similarity 1. -/
theorem cosine_matrix_zero_norm_uninitialized :
    cosine_similarity_matrix [(1 : ℝ)] [[0], [1]] = [none, some 1]
    ∧ cosine_similarity_single [(1 : ℝ)] [(0 : ℝ)] = 0 := by
  constructor
  · unfold cosine_similarity_matrix normR dotR
    norm_num
  · unfold cosine_similarity_single normR dotR
    norm_num
